import Mathlib

/-!
Verification development for the rendology shader-uniform composition
framework and its glow post-processing effect.

The embedding follows the two source files:

* `src/shader/input.rs` — uniform views and their combinators
  (`UniformsPair`, `UniformsOption`, `UniformsRef`, `EmptyUniforms`,
  the `impl_uniform_input` declaration facility and `StaticUniformType`).
  Uniform views are modelled as an inductive `Uniforms` type whose
  `visit_values` function returns the list of name/value pairs that the
  Rust `visit_values` callback traversal would emit, in order.

* `src/pipeline/glow/mod.rs` — the `Glow` effect.  GPU-side effects are
  modelled by explicit state passing: texture contents live inside the
  `Texture2d` record, a `Facade` supplies the fallible GPU services
  (texture creation, framebuffer binding, draw submission) as oracles
  indexed by call position within one operation, and draw submissions are
  recorded in an explicit `DrawCmd` trace.
-/

namespace Rendology

/-! ## Uniform views (src/shader/input.rs) -/

/-- A uniform view: the combinator shapes from `input.rs`.
`values` stands for a leaf emitting a fixed ordered field list (a
macro-generated `MyUniforms` record or a `UniformsStorage`); `pair` is
`UniformsPair`, `option` is `UniformsOption`, `ref` is `UniformsRef`,
`empty` is glium's `EmptyUniforms`. -/
inductive Uniforms (V : Type) where
  | empty : Uniforms V
  | values : List (String × V) → Uniforms V
  | pair : Uniforms V → Uniforms V → Uniforms V
  | option : Option (Uniforms V) → Uniforms V
  | ref : Uniforms V → Uniforms V

/-- The trace of callback invocations performed by `Uniforms::visit_values`:
`UniformsPair` visits the left operand then the right through one shared
callback, `UniformsOption` visits the inner view if present and nothing
otherwise, `UniformsRef` forwards to the wrapped view, `EmptyUniforms`
emits nothing, and a field-list leaf emits its fields in order. -/
def visit_values {V : Type} : Uniforms V → List (String × V)
  | Uniforms.empty => []
  | Uniforms.values l => l
  | Uniforms.pair u1 u2 => visit_values u1 ++ visit_values u2
  | Uniforms.option o =>
    match o with
    | none => []
    | some u => visit_values u
  | Uniforms.ref u => visit_values u

/-- A uniform data source, as composed via the `ToUniforms` impls of
`input.rs`: `unit` is the source `()`, `emptyUniforms` is the
`EmptyUniforms` source, `input` is a type declared through
`impl_uniform_input` (its authored field list), `storage` is a glium
`UniformsStorage`, and `pair`/`option` are the tuple and `Option`
composition impls. -/
inductive Source (V : Type) where
  | unit : Source V
  | emptyUniforms : Source V
  | input : List (String × V) → Source V
  | storage : List (String × V) → Source V
  | pair : Source V → Source V → Source V
  | option : Option (Source V) → Source V

/-- `ToUniforms::to_uniforms` for each impl in `input.rs`:
`()` and `EmptyUniforms` produce `EmptyUniforms`, a macro-declared type
produces its `MyUniforms` record, a `UniformsStorage` produces
`UniformsRef(self)`, `(U1, U2)` produces
`UniformsPair(self.0.to_uniforms(), self.1.to_uniforms())`, and
`Option<U>` produces `UniformsOption(self.as_ref().map(to_uniforms))`. -/
def to_uniforms {V : Type} : Source V → Uniforms V
  | Source.unit => Uniforms.empty
  | Source.emptyUniforms => Uniforms.empty
  | Source.input l => Uniforms.values l
  | Source.storage l => Uniforms.ref (Uniforms.values l)
  | Source.pair s1 s2 => Uniforms.pair (to_uniforms s1) (to_uniforms s2)
  | Source.option o =>
    match o with
    | none => Uniforms.option none
    | some s => Uniforms.option (some (to_uniforms s))

/-- The left-to-right, depth-first concatenation of the leaf sources'
own field lists — the specification-side description of what visiting a
composite should emit. -/
def leafList {V : Type} : Source V → List (String × V)
  | Source.unit => []
  | Source.emptyUniforms => []
  | Source.input l => l
  | Source.storage l => l
  | Source.pair s1 s2 => leafList s1 ++ leafList s2
  | Source.option o =>
    match o with
    | none => []
    | some s => leafList s

/-! ## Declaration facility and static type tags (src/shader/input.rs) -/

/-- The GPU uniform-type tags targeted by the `StaticUniformType` impls. -/
inductive UniformType where
  | Bool : UniformType
  | Float : UniformType
  | FloatVec2 : UniformType
  | FloatVec3 : UniformType
  | FloatVec4 : UniformType
  | FloatMat2 : UniformType
  | FloatMat3 : UniformType
  | FloatMat4 : UniformType
deriving DecidableEq

/-- The field shapes for which `StaticUniformType` is implemented:
`bool`, `f32`, `[f32; 2/3/4]`, `[[f32; 2/3/4]; 2/3/4]`. -/
inductive FieldType where
  | bool : FieldType
  | f32 : FieldType
  | f32x2 : FieldType
  | f32x3 : FieldType
  | f32x4 : FieldType
  | f32mat2 : FieldType
  | f32mat3 : FieldType
  | f32mat4 : FieldType
deriving DecidableEq

/-- The `StaticUniformType::TYPE` associated constant for each impl. -/
def StaticUniformType_TYPE : FieldType → UniformType
  | FieldType.bool => UniformType.Bool
  | FieldType.f32 => UniformType.Float
  | FieldType.f32x2 => UniformType.FloatVec2
  | FieldType.f32x3 => UniformType.FloatVec3
  | FieldType.f32x4 => UniformType.FloatVec4
  | FieldType.f32mat2 => UniformType.FloatMat2
  | FieldType.f32mat3 => UniformType.FloatMat3
  | FieldType.f32mat4 => UniformType.FloatMat4

/-- `UniformInput::uniform_input_defs` as generated by
`impl_uniform_input_detail` from an authored field list: one
`(stringify!(field).to_string(), <type as StaticUniformType>::TYPE)` entry
per field, in declaration order. -/
def uniform_input_defs (fields : List (String × FieldType)) :
    List (String × UniformType) :=
  fields.map (fun f => (f.1, StaticUniformType_TYPE f.2))

/-! ## Glow effect (src/pipeline/glow/mod.rs) -/

/-- A creation error surfaced by texture/program/quad allocation.  Its
payload is abstract; only propagation matters. -/
structure CreationError where
  code : Nat
deriving DecidableEq

/-- A draw error surfaced by framebuffer binding or draw submission. -/
structure DrawError where
  code : Nat
deriving DecidableEq

/-- `glium::texture::UncompressedFloatFormat` (only the variant used). -/
inductive TextureFormat where
  | F32F32F32F32 : TextureFormat
deriving DecidableEq

/-- `glium::texture::MipmapsOption` (only the variant used). -/
inductive MipmapsOption where
  | NoMipmap : MipmapsOption
deriving DecidableEq

/-- GPU-side contents of a texture, tracked symbolically: freshly
allocated, cleared to an exact color, or written by a draw through the
blur program with the given `horizontal` flag reading the given source
contents. -/
inductive TexContent where
  | uninit : TexContent
  | cleared : Int → Int → Int → Int → TexContent
  | blurred : Bool → TexContent → TexContent
deriving DecidableEq

/-- A `glium::Texture2d`: dimensions, allocation parameters and current
GPU-side contents. -/
structure Texture2d where
  width : Nat
  height : Nat
  format : TextureFormat
  mipmaps : MipmapsOption
  content : TexContent
deriving DecidableEq

/-- A compiled GPU program (abstract handle). -/
structure Program where
  id : Nat
deriving DecidableEq

/-- The reusable full-screen quad: handles of its vertex and index
buffers. -/
structure ScreenQuad where
  vertex_buffer : Nat
  index_buffer : Nat
deriving DecidableEq

/-- Which of the effect's two textures a sampler or framebuffer refers
to: the front `glow_texture` or the back `glow_texture_back`. -/
inductive TexSel where
  | glow : TexSel
  | glowBack : TexSel
deriving DecidableEq

/-- `glium::uniforms::MagnifySamplerFilter` (relevant variants). -/
inductive MagFilter where
  | Linear : MagFilter
  | Nearest : MagFilter
deriving DecidableEq

/-- `glium::uniforms::MinifySamplerFilter` (relevant variants). -/
inductive MinFilter where
  | Linear : MinFilter
  | Nearest : MinFilter
deriving DecidableEq

/-- `glium::uniforms::SamplerWrapFunction` (relevant variants). -/
inductive WrapFn where
  | Clamp : WrapFn
  | Repeat : WrapFn
deriving DecidableEq

/-- A configured sampler over one of the effect's textures. -/
structure SamplerCfg where
  texture : TexSel
  magnify_filter : MagFilter
  minify_filter : MinFilter
  wrap_function : WrapFn
deriving DecidableEq

/-- A value bound by `uniform!` in a draw call of the glow effect:
either a boolean or a sampled texture. -/
inductive DrawUniform where
  | boolVal : Bool → DrawUniform
  | samplerVal : SamplerCfg → DrawUniform
deriving DecidableEq

/-- One draw submission: the buffers and program handed to
`Surface::draw`, the framebuffer's target texture, and the `uniform!`
name/value set. -/
structure DrawCmd where
  vertex_buffer : Nat
  index_buffer : Nat
  program : Program
  target : TexSel
  uniforms : List (String × DrawUniform)
deriving DecidableEq

/-- The glow effect's configuration (`Config`). -/
structure Config where
  num_blur_passes : Nat
deriving DecidableEq

/-- `Config::default()`: two blur passes. -/
def Config.default : Config := ⟨2⟩

/-- The glow effect's state (`struct Glow`). -/
structure Glow where
  config : Config
  glow_texture : Texture2d
  glow_texture_back : Texture2d
  blur_program : Program
  screen_quad : ScreenQuad
deriving DecidableEq

/-- The GPU facade: oracles deciding, per call position within one
operation, whether texture creation, framebuffer binding and draw
submission succeed, plus the results of program and quad creation. -/
structure Facade where
  texResult : Nat → Option CreationError
  fbResult : Nat → Option DrawError
  drawResult : Nat → Option DrawError
  programResult : Except CreationError Program
  quadResult : Except CreationError ScreenQuad

/-- `Glow::create_texture`: an empty `F32F32F32F32`, no-mipmap texture of
the requested size, or the facade's creation error for this call
position. -/
def create_texture (f : Facade) (idx : Nat) (size : Nat × Nat) :
    Except CreationError Texture2d :=
  match f.texResult idx with
  | some e => Except.error e
  | none =>
    Except.ok
      { width := size.1, height := size.2,
        format := TextureFormat.F32F32F32F32,
        mipmaps := MipmapsOption.NoMipmap,
        content := TexContent.uninit }

/-- `Glow::create`: allocate the two textures, build the blur program,
create the screen quad, and assemble the state. -/
def Glow.create (f : Facade) (config : Config) (target_size : Nat × Nat) :
    Except CreationError Glow :=
  match create_texture f 0 target_size with
  | Except.error e => Except.error e
  | Except.ok glow_texture =>
    match create_texture f 1 target_size with
    | Except.error e => Except.error e
    | Except.ok glow_texture_back =>
      match f.programResult with
      | Except.error e => Except.error e
      | Except.ok blur_program =>
        match f.quadResult with
        | Except.error e => Except.error e
        | Except.ok screen_quad =>
          Except.ok
            { config := config, glow_texture := glow_texture,
              glow_texture_back := glow_texture_back,
              blur_program := blur_program, screen_quad := screen_quad }

/-- `Glow::clear_buffers`: bind a framebuffer on `glow_texture` (the
facade's framebuffer oracle at position 0 decides success) and clear it
to color `(0.0, 0.0, 0.0, 0.0)`.  Returns the post-call state and the
propagated error, if any. -/
def clear_buffers (f : Facade) (g : Glow) : Glow × Option DrawError :=
  match f.fbResult 0 with
  | some e => (g, some e)
  | none =>
    ({ g with
        glow_texture :=
          { g.glow_texture with content := TexContent.cleared 0 0 0 0 } },
      none)

/-- `Glow::on_target_resize`: reassign `glow_texture` from the first
allocation, then `glow_texture_back` from the second; each `?` returns
early with the state as mutated so far. -/
def on_target_resize (f : Facade) (target_size : Nat × Nat) (g : Glow) :
    Glow × Option CreationError :=
  match create_texture f 0 target_size with
  | Except.error e => (g, some e)
  | Except.ok t =>
    let g1 := { g with glow_texture := t }
    match create_texture f 1 target_size with
    | Except.error e => (g1, some e)
    | Except.ok t2 => ({ g1 with glow_texture_back := t2 }, none)

/-- The `glow_map` sampler of `blur_pass`: the front texture with linear
magnify/minify filtering and clamp wrapping. -/
def glow_map : SamplerCfg :=
  { texture := TexSel.glow, magnify_filter := MagFilter.Linear,
    minify_filter := MinFilter.Linear, wrap_function := WrapFn.Clamp }

/-- The `glow_map_back` sampler of `blur_pass`: the back texture with
linear magnify/minify filtering and clamp wrapping. -/
def glow_map_back : SamplerCfg :=
  { texture := TexSel.glowBack, magnify_filter := MagFilter.Linear,
    minify_filter := MinFilter.Linear, wrap_function := WrapFn.Clamp }

/-- The first draw of each blur iteration: full-screen quad through the
blur program into `glow_buffer_back`, with `horizontal: false` and
`glow_texture: glow_map`. -/
def blurDrawBack (g : Glow) : DrawCmd :=
  { vertex_buffer := g.screen_quad.vertex_buffer,
    index_buffer := g.screen_quad.index_buffer,
    program := g.blur_program, target := TexSel.glowBack,
    uniforms :=
      [("horizontal", DrawUniform.boolVal false),
       ("glow_texture", DrawUniform.samplerVal glow_map)] }

/-- The second draw of each blur iteration: full-screen quad through the
blur program into `glow_buffer`, with `horizontal: true` and
`glow_texture: glow_map_back`. -/
def blurDrawFront (g : Glow) : DrawCmd :=
  { vertex_buffer := g.screen_quad.vertex_buffer,
    index_buffer := g.screen_quad.index_buffer,
    program := g.blur_program, target := TexSel.glow,
    uniforms :=
      [("horizontal", DrawUniform.boolVal true),
       ("glow_texture", DrawUniform.samplerVal glow_map_back)] }

/-- The loop of `blur_pass`: `k` remaining iterations, `idx` the draw
oracle position of the next submission.  Each iteration submits the
back draw (writing the non-horizontal blur of the front contents into
the back texture) then the front draw (writing the horizontal blur of
the back contents into the front texture); on a draw error the loop
stops (fail-fast) with that error.  Returns the post-state, the trace of
submitted draws, and the error, if any. -/
def blurLoop (f : Facade) (k idx : Nat) (g : Glow) :
    Glow × List DrawCmd × Option DrawError :=
  match k with
  | 0 => (g, [], none)
  | Nat.succ k =>
    match f.drawResult idx with
    | some e => (g, [blurDrawBack g], some e)
    | none =>
      let g1 :=
        { g with
            glow_texture_back :=
              { g.glow_texture_back with
                  content := TexContent.blurred false g.glow_texture.content } }
      match f.drawResult (idx + 1) with
      | some e => (g1, [blurDrawBack g, blurDrawFront g1], some e)
      | none =>
        let g2 :=
          { g1 with
              glow_texture :=
                { g1.glow_texture with
                    content :=
                      TexContent.blurred true g1.glow_texture_back.content } }
        let r := blurLoop f k (idx + 2) g2
        (r.1, blurDrawBack g :: blurDrawFront g1 :: r.2.1, r.2.2)

/-- `Glow::blur_pass`: bind framebuffers on the front and back textures
(facade framebuffer oracle positions 0 and 1), then run
`config.num_blur_passes` iterations of the blur loop. -/
def blur_pass (f : Facade) (g : Glow) :
    Glow × List DrawCmd × Option DrawError :=
  match f.fbResult 0 with
  | some e => (g, [], some e)
  | none =>
    match f.fbResult 1 with
    | some e => (g, [], some e)
    | none => blurLoop f g.config.num_blur_passes 0 g

/-- `ScenePassComponent::output_textures` for `Glow`: the single
additional attachment `("f_glow_color", glow_texture)`. -/
def output_textures (g : Glow) : List (String × Texture2d) :=
  [("f_glow_color", g.glow_texture)]

/-- `ScenePassComponent::params` for `Glow`: the unit params type
(`type Params = ()`), as a uniform source. -/
def scene_pass_params (_g : Glow) : Source Texture2d :=
  Source.unit

/-- `CompositionPassComponent::params` for `Glow`: a
`CompositionPassParams` value holding the front texture, declared through
`impl_uniform_input!` with the single field
`glow_texture: &Texture2d = self.glow_texture`. -/
def composition_pass_params (g : Glow) : Source Texture2d :=
  Source.input [("glow_texture", g.glow_texture)]

/-- Dimensions of a texture. -/
def texDims (t : Texture2d) : Nat × Nat :=
  (t.width, t.height)

/-- The spec's invariant: the two glow textures have equal dimensions. -/
def dimsEq (g : Glow) : Prop :=
  texDims g.glow_texture = texDims g.glow_texture_back

instance (g : Glow) : Decidable (dimsEq g) := by
  unfold dimsEq
  infer_instance

/-! ## Helper lemmas -/

/-- Visiting any composed source emits exactly the left-to-right,
depth-first concatenation of the leaf field lists. -/
theorem visit_to_uniforms_eq_leafList {V : Type} :
    ∀ s : Source V, visit_values (to_uniforms s) = leafList s
  | Source.unit => rfl
  | Source.emptyUniforms => rfl
  | Source.input _ => rfl
  | Source.storage _ => rfl
  | Source.pair s1 s2 => by
    simp [to_uniforms, visit_values, leafList,
      visit_to_uniforms_eq_leafList s1, visit_to_uniforms_eq_leafList s2]
  | Source.option none => rfl
  | Source.option (some s) => by
    simp [to_uniforms, visit_values, leafList, visit_to_uniforms_eq_leafList s]

/-- The length of a join of `k` replicas of a list. -/
theorem length_join_replicate {α : Type} (k : Nat) (l : List α) :
    (List.flatten (List.replicate k l)).length = k * l.length := by
  induction k with
  | zero => simp
  | succ k ih => simp [List.replicate_succ, ih, Nat.succ_mul, Nat.add_comm]

/-- If the blur loop finishes without a draw error, its trace is `k`
repetitions of the back draw followed by the front draw. -/
theorem blurLoop_trace (f : Facade) :
    ∀ (k idx : Nat) (g : Glow), (blurLoop f k idx g).2.2 = none →
      (blurLoop f k idx g).2.1 =
        List.flatten (List.replicate k [blurDrawBack g, blurDrawFront g]) := by
  intro k
  induction k with
  | zero => intro idx g _; simp [blurLoop]
  | succ k ih =>
    intro idx g herr
    cases h1 : f.drawResult idx with
    | some e => simp [blurLoop, h1] at herr
    | none =>
      cases h2 : f.drawResult (idx + 1) with
      | some e => simp [blurLoop, h1, h2] at herr
      | none =>
        have herr2 : (blurLoop f (k + 1) idx g).2.2 =
            (blurLoop f k (idx + 2)
              { g with
                  glow_texture_back :=
                    { g.glow_texture_back with
                        content :=
                          TexContent.blurred false g.glow_texture.content },
                  glow_texture :=
                    { g.glow_texture with
                        content :=
                          TexContent.blurred true
                            (TexContent.blurred false
                              g.glow_texture.content) } }).2.2 := by
          simp [blurLoop, h1, h2]
        rw [herr2] at herr
        have htr := ih (idx + 2) _ herr
        simp [blurLoop, h1, h2, List.replicate_succ, blurDrawBack,
          blurDrawFront, htr]

/-- The blur loop never changes either texture's dimensions, nor the
config, program or quad. -/
theorem blurLoop_frame (f : Facade) :
    ∀ (k idx : Nat) (g : Glow),
      texDims (blurLoop f k idx g).1.glow_texture =
        texDims g.glow_texture ∧
      texDims (blurLoop f k idx g).1.glow_texture_back =
        texDims g.glow_texture_back := by
  intro k
  induction k with
  | zero => intro idx g; simp [blurLoop]
  | succ k ih =>
    intro idx g
    cases h1 : f.drawResult idx with
    | some e => simp [blurLoop, h1]
    | none =>
      cases h2 : f.drawResult (idx + 1) with
      | some e => simp [blurLoop, h1, h2, texDims]
      | none =>
        simp only [blurLoop, h1, h2]
        exact ⟨(ih (idx + 2) _).1, (ih (idx + 2) _).2⟩

/-- If the blur loop runs at least one iteration and finishes without a
draw error, the front texture's contents end as a horizontal blur of
some contents. -/
theorem blurLoop_front_blurred (f : Facade) :
    ∀ (k idx : Nat) (g : Glow), k ≠ 0 → (blurLoop f k idx g).2.2 = none →
      ∃ c, (blurLoop f k idx g).1.glow_texture.content =
        TexContent.blurred true c := by
  intro k
  induction k with
  | zero => intro idx g hk; exact absurd rfl hk
  | succ k ih =>
    intro idx g _ herr
    cases h1 : f.drawResult idx with
    | some e => simp [blurLoop, h1] at herr
    | none =>
      cases h2 : f.drawResult (idx + 1) with
      | some e => simp [blurLoop, h1, h2] at herr
      | none =>
        cases k with
        | zero =>
          exact ⟨TexContent.blurred false g.glow_texture.content,
            by simp [blurLoop, h1, h2]⟩
        | succ m =>
          have herr2 : (blurLoop f (m + 1 + 1) idx g).2.2 =
              (blurLoop f (m + 1) (idx + 2)
                { g with
                    glow_texture_back :=
                      { g.glow_texture_back with
                          content :=
                            TexContent.blurred false g.glow_texture.content },
                    glow_texture :=
                      { g.glow_texture with
                          content :=
                            TexContent.blurred true
                              (TexContent.blurred false
                                g.glow_texture.content) } }).2.2 := by
            simp [blurLoop, h1, h2]
          rw [herr2] at herr
          have hres := ih (idx + 2) _ (Nat.succ_ne_zero m) herr
          simpa [blurLoop, h1, h2] using hres

/-! ## Claims about uniform composition -/

/-- Claim C4: for every pair of composed uniform sources, visiting the
pair composite emits exactly the concatenation of the left operand's
visitation followed by the right operand's, with no name/value pair
dropped, renamed or merged; recursively, any composite's visitation is
the left-to-right depth-first concatenation of its leaves' field
lists. -/
theorem pair_visit_concat {V : Type} :
    (∀ s1 s2 : Source V,
      visit_values (to_uniforms (Source.pair s1 s2)) =
        visit_values (to_uniforms s1) ++ visit_values (to_uniforms s2)) ∧
    (∀ s : Source V, visit_values (to_uniforms s) = leafList s) :=
  ⟨fun _ _ => rfl, visit_to_uniforms_eq_leafList⟩

/-- Claim C5: visiting an optional composite holding a source emits
exactly the inner source's pairs, an absent one emits nothing, and
toggling the optional's presence does not change the pairs emitted by a
sibling source composed alongside it (the sibling's contribution is its
own visitation either way, on either side). -/
theorem option_visit_spec {V : Type} :
    (∀ s : Source V,
      visit_values (to_uniforms (Source.option (some s))) =
        visit_values (to_uniforms s)) ∧
    (visit_values (to_uniforms (Source.option (none : Option (Source V)))) =
      []) ∧
    (∀ (o : Option (Source V)) (sib : Source V),
      visit_values (to_uniforms (Source.pair (Source.option o) sib)) =
        visit_values (to_uniforms (Source.option o)) ++
          visit_values (to_uniforms sib) ∧
      visit_values (to_uniforms (Source.pair sib (Source.option o))) =
        visit_values (to_uniforms sib) ++
          visit_values (to_uniforms (Source.option o))) :=
  ⟨fun _ => rfl, rfl, fun _ _ => ⟨rfl, rfl⟩⟩

/-- Claim C6: for every declared field list, the generated
`uniform_input_defs` list has the same length and order as the authored
field list, and the tag paired with each field name is the fixed
shape-to-tag mapping applied to that field's declared shape (`bool` to
`Bool`, `f32` to `Float`, float vectors to `FloatVec2/3/4`, float
matrices to `FloatMat2/3/4`). -/
theorem uniform_input_defs_spec :
    (∀ fields : List (String × FieldType),
      (uniform_input_defs fields).length = fields.length) ∧
    (∀ (fields : List (String × FieldType)) (i : Nat),
      (uniform_input_defs fields)[i]? =
        fields[i]?.map (fun f => (f.1, StaticUniformType_TYPE f.2))) ∧
    (StaticUniformType_TYPE FieldType.bool = UniformType.Bool ∧
     StaticUniformType_TYPE FieldType.f32 = UniformType.Float ∧
     StaticUniformType_TYPE FieldType.f32x2 = UniformType.FloatVec2 ∧
     StaticUniformType_TYPE FieldType.f32x3 = UniformType.FloatVec3 ∧
     StaticUniformType_TYPE FieldType.f32x4 = UniformType.FloatVec4 ∧
     StaticUniformType_TYPE FieldType.f32mat2 = UniformType.FloatMat2 ∧
     StaticUniformType_TYPE FieldType.f32mat3 = UniformType.FloatMat3 ∧
     StaticUniformType_TYPE FieldType.f32mat4 = UniformType.FloatMat4) := by
  refine ⟨fun fields => ?_, fun fields i => ?_, by repeat constructor⟩
  · simp [uniform_input_defs]
  · simp [uniform_input_defs, List.getElem?_map]

/-- Claim C8: the glow effect's scene-pass contribution declares exactly
one additional named output attachment, named `f_glow_color` and bound
to the glow texture, and its per-surface params (the unit type) emit no
name/value pairs. -/
theorem glow_scene_pass_spec (g : Glow) :
    output_textures g = [("f_glow_color", g.glow_texture)] ∧
    (output_textures g).length = 1 ∧
    visit_values (to_uniforms (scene_pass_params g)) = [] :=
  ⟨rfl, rfl, rfl⟩

/-! ## Concrete inputs for witnesses and counterexamples -/

/-- A facade on which every GPU operation succeeds. -/
def facadeOk : Facade :=
  { texResult := fun _ => none, fbResult := fun _ => none,
    drawResult := fun _ => none,
    programResult := Except.ok ⟨1⟩,
    quadResult := Except.ok ⟨2, 3⟩ }

/-- A facade on which every framebuffer bind fails. -/
def facadeFbFail : Facade :=
  { facadeOk with fbResult := fun _ => some ⟨7⟩ }

/-- A facade on which the first texture allocation succeeds and every
later one fails. -/
def facadeTexFail1 : Facade :=
  { facadeOk with
      texResult := fun i => if i = 0 then none else some ⟨5⟩ }

/-- A concrete 256 by 256 texture. -/
def tex256 : Texture2d :=
  { width := 256, height := 256, format := TextureFormat.F32F32F32F32,
    mipmaps := MipmapsOption.NoMipmap, content := TexContent.uninit }

/-- A concrete glow state with the default two blur passes. -/
def glow0 : Glow :=
  { config := ⟨2⟩, glow_texture := tex256, glow_texture_back := tex256,
    blur_program := ⟨1⟩, screen_quad := ⟨2, 3⟩ }

/-- The same glow state with zero blur passes configured. -/
def glowK0 : Glow :=
  { glow0 with config := ⟨0⟩ }

/-! ## Claims about the glow effect -/

/-- Claim C2: a successful `blur_pass` with `num_blur_passes = k`
performs exactly `2k` draw submissions; in each iteration the first draw
has `horizontal: false`, reads the glow texture and writes the back
texture, the second has `horizontal: true`, reads the back texture and
writes the glow texture, and both sample with linear filtering and
clamp-to-edge wrapping (`blurDrawBack`/`blurDrawFront`). -/
theorem blur_pass_success_trace (f : Facade) (g : Glow)
    (h : (blur_pass f g).2.2 = none) :
    (blur_pass f g).2.1 =
      List.flatten (List.replicate g.config.num_blur_passes
        [blurDrawBack g, blurDrawFront g]) ∧
    (blur_pass f g).2.1.length = 2 * g.config.num_blur_passes := by
  cases hf0 : f.fbResult 0 with
  | some e => simp [blur_pass, hf0] at h
  | none =>
    cases hf1 : f.fbResult 1 with
    | some e => simp [blur_pass, hf0, hf1] at h
    | none =>
      have h2 : (blurLoop f g.config.num_blur_passes 0 g).2.2 = none := by
        simpa [blur_pass, hf0, hf1] using h
      have htr := blurLoop_trace f g.config.num_blur_passes 0 g h2
      constructor
      · simpa [blur_pass, hf0, hf1] using htr
      · simp [blur_pass, hf0, hf1, htr, length_join_replicate,
          Nat.mul_comm]

/-- Witness for C2 at a concrete all-success facade and a glow state
with two configured blur passes. -/
theorem blur_pass_success_trace_witness :
    (blur_pass facadeOk glow0).2.1 =
      List.flatten (List.replicate glow0.config.num_blur_passes
        [blurDrawBack glow0, blurDrawFront glow0]) ∧
    (blur_pass facadeOk glow0).2.1.length =
      2 * glow0.config.num_blur_passes :=
  blur_pass_success_trace facadeOk glow0 rfl

/-- Claim C3: with `num_blur_passes = 0`, `blur_pass` performs zero draw
submissions and leaves the whole glow state — in particular both
textures' contents — exactly unchanged. -/
theorem blur_pass_zero_passes (f : Facade) (g : Glow)
    (h : g.config.num_blur_passes = 0) :
    (blur_pass f g).1 = g ∧ (blur_pass f g).2.1 = [] := by
  cases hf0 : f.fbResult 0 with
  | some e => simp [blur_pass, hf0]
  | none =>
    cases hf1 : f.fbResult 1 with
    | some e => simp [blur_pass, hf0, hf1]
    | none => simp [blur_pass, hf0, hf1, h, blurLoop]

/-- Witness for C3 at a concrete facade and a glow state configured with
zero blur passes. -/
theorem blur_pass_zero_passes_witness :
    (blur_pass facadeOk glowK0).1 = glowK0 ∧
    (blur_pass facadeOk glowK0).2.1 = [] :=
  blur_pass_zero_passes facadeOk glowK0 rfl

/-- Claim C7: `clear_buffers` binds the glow texture as a render target
and clears it to fully transparent black `(0, 0, 0, 0)`; on success it
returns no error, and a framebuffer-bind failure is propagated as the
draw error, leaving the state untouched. -/
theorem clear_buffers_spec (f : Facade) (g : Glow) :
    (f.fbResult 0 = none →
      (clear_buffers f g).2 = none ∧
      (clear_buffers f g).1.glow_texture.content =
        TexContent.cleared 0 0 0 0) ∧
    (∀ e, f.fbResult 0 = some e →
      (clear_buffers f g).2 = some e ∧ (clear_buffers f g).1 = g) := by
  constructor
  · intro h; simp [clear_buffers, h]
  · intro e h; simp [clear_buffers, h]

/-- Witness for C7: a concrete successful clear and a concrete failing
framebuffer bind. -/
theorem clear_buffers_spec_witness :
    ((clear_buffers facadeOk glow0).2 = none ∧
      (clear_buffers facadeOk glow0).1.glow_texture.content =
        TexContent.cleared 0 0 0 0) ∧
    ((clear_buffers facadeFbFail glow0).2 = some ⟨7⟩ ∧
      (clear_buffers facadeFbFail glow0).1 = glow0) :=
  ⟨(clear_buffers_spec facadeOk glow0).1 rfl,
   (clear_buffers_spec facadeFbFail glow0).2 ⟨7⟩ rfl⟩

/-- Claim C10: `clear_buffers`, whether it succeeds or fails, leaves the
back texture and all other fields of the glow state unchanged; only the
glow texture's contents (not its dimensions or allocation parameters)
are modified. -/
theorem clear_buffers_frame_effect (f : Facade) (g : Glow) :
    (clear_buffers f g).1.config = g.config ∧
    (clear_buffers f g).1.blur_program = g.blur_program ∧
    (clear_buffers f g).1.screen_quad = g.screen_quad ∧
    (clear_buffers f g).1.glow_texture_back = g.glow_texture_back ∧
    (clear_buffers f g).1.glow_texture.width = g.glow_texture.width ∧
    (clear_buffers f g).1.glow_texture.height = g.glow_texture.height ∧
    (clear_buffers f g).1.glow_texture.format = g.glow_texture.format ∧
    (clear_buffers f g).1.glow_texture.mipmaps = g.glow_texture.mipmaps := by
  cases h : f.fbResult 0 <;> simp [clear_buffers, h]

/-- Claim C9: the glow effect's composition-pass params emit exactly one
name/value pair, named `glow_texture`, whose value is the current front
texture; moreover, after any successful `blur_pass` with at least one
configured iteration, that front texture's contents are the final
horizontal blur result. -/
theorem glow_composition_params_spec (g : Glow) :
    visit_values (to_uniforms (composition_pass_params g)) =
      [("glow_texture", g.glow_texture)] ∧
    (visit_values (to_uniforms (composition_pass_params g))).length = 1 ∧
    (∀ f : Facade, g.config.num_blur_passes ≠ 0 →
      (blur_pass f g).2.2 = none →
      ∃ c, (blur_pass f g).1.glow_texture.content =
        TexContent.blurred true c) := by
  refine ⟨rfl, rfl, fun f hk herr => ?_⟩
  cases hf0 : f.fbResult 0 with
  | some e => simp [blur_pass, hf0] at herr
  | none =>
    cases hf1 : f.fbResult 1 with
    | some e => simp [blur_pass, hf0, hf1] at herr
    | none =>
      have h2 : (blurLoop f g.config.num_blur_passes 0 g).2.2 = none := by
        simpa [blur_pass, hf0, hf1] using herr
      have hres := blurLoop_front_blurred f g.config.num_blur_passes 0 g hk h2
      simpa [blur_pass, hf0, hf1] using hres

/-- Witness for C9 at a concrete glow state with two configured blur
passes and an all-success facade. -/
theorem glow_composition_params_spec_witness :
    visit_values (to_uniforms (composition_pass_params glow0)) =
      [("glow_texture", glow0.glow_texture)] ∧
    ∃ c, (blur_pass facadeOk glow0).1.glow_texture.content =
      TexContent.blurred true c :=
  ⟨(glow_composition_params_spec glow0).1,
   (glow_composition_params_spec glow0).2.2 facadeOk (by decide) rfl⟩

/-- Counterexample to claim C1 as stated: starting from a state whose
two textures both measure 256 by 256, an `on_target_resize` to 50 by 50
on a facade whose first allocation succeeds and whose second fails
returns an error and leaves the glow texture at the new size but the
back texture at the old size — a partially-resized state observable to
the caller. -/
theorem on_target_resize_partial_cex :
    dimsEq glow0 ∧
    (on_target_resize facadeTexFail1 (50, 50) glow0).2 = some ⟨5⟩ ∧
    (on_target_resize facadeTexFail1 (50, 50) glow0).1.glow_texture.width =
      50 ∧
    (on_target_resize facadeTexFail1 (50, 50)
        glow0).1.glow_texture_back.width = 256 ∧
    ¬ dimsEq (on_target_resize facadeTexFail1 (50, 50) glow0).1 := by
  refine ⟨by decide, rfl, rfl, rfl, by decide⟩

/-- Claim C1 (amended): the equal-dimensions invariant holds after a
successful `create` and after a successful `on_target_resize` (both
textures then measure the new target size), and is preserved by
`clear_buffers` and `blur_pass`; but an `on_target_resize` whose second
allocation fails leaves a partially-resized state, so the invariant is
only guaranteed when `on_target_resize` returns no error. -/
theorem glow_dims_invariant (f : Facade) (g : Glow) (sz : Nat × Nat) :
    ((on_target_resize f sz g).2 = none →
      texDims (on_target_resize f sz g).1.glow_texture = sz ∧
      texDims (on_target_resize f sz g).1.glow_texture_back = sz ∧
      dimsEq (on_target_resize f sz g).1) ∧
    (dimsEq g → dimsEq (clear_buffers f g).1) ∧
    (dimsEq g → dimsEq (blur_pass f g).1) ∧
    (∀ (cfg : Config) (gl : Glow), Glow.create f cfg sz = Except.ok gl →
      texDims gl.glow_texture = sz ∧ texDims gl.glow_texture_back = sz ∧
      dimsEq gl) := by
  refine ⟨?_, ?_, ?_, ?_⟩
  · intro h
    cases ht0 : f.texResult 0 with
    | some e => simp [on_target_resize, create_texture, ht0] at h
    | none =>
      cases ht1 : f.texResult 1 with
      | some e => simp [on_target_resize, create_texture, ht0, ht1] at h
      | none =>
        simp [on_target_resize, create_texture, ht0, ht1, texDims, dimsEq]
  · intro h
    cases hf0 : f.fbResult 0 with
    | some e => simpa [clear_buffers, hf0] using h
    | none =>
      simpa [clear_buffers, hf0, dimsEq, texDims] using h
  · intro h
    cases hf0 : f.fbResult 0 with
    | some e => simpa [blur_pass, hf0] using h
    | none =>
      cases hf1 : f.fbResult 1 with
      | some e => simpa [blur_pass, hf0, hf1] using h
      | none =>
        have hfr := blurLoop_frame f g.config.num_blur_passes 0 g
        unfold dimsEq at h ⊢
        simp only [blur_pass, hf0, hf1]
        rw [hfr.1, hfr.2]
        exact h
  · intro cfg gl h
    cases ht0 : f.texResult 0 with
    | some e => simp [Glow.create, create_texture, ht0] at h
    | none =>
      cases ht1 : f.texResult 1 with
      | some e => simp [Glow.create, create_texture, ht0, ht1] at h
      | none =>
        cases hp : f.programResult with
        | error e => simp [Glow.create, create_texture, ht0, ht1, hp] at h
        | ok p =>
          cases hq : f.quadResult with
          | error e =>
            simp [Glow.create, create_texture, ht0, ht1, hp, hq] at h
          | ok q =>
            have hgl : gl =
                { config := cfg,
                  glow_texture :=
                    { width := sz.1, height := sz.2,
                      format := TextureFormat.F32F32F32F32,
                      mipmaps := MipmapsOption.NoMipmap,
                      content := TexContent.uninit },
                  glow_texture_back :=
                    { width := sz.1, height := sz.2,
                      format := TextureFormat.F32F32F32F32,
                      mipmaps := MipmapsOption.NoMipmap,
                      content := TexContent.uninit },
                  blur_program := p, screen_quad := q } := by
              have h2 := h
              simp [Glow.create, create_texture, ht0, ht1, hp, hq] at h2
              exact h2.symm
            subst hgl
            simp [texDims, dimsEq]

/-- Witness for the amended C1 at concrete inputs: a fully successful
resize, a clear and a blur from an invariant-satisfying state, and a
successful creation. -/
theorem glow_dims_invariant_witness :
    (texDims (on_target_resize facadeOk (50, 50) glow0).1.glow_texture =
        (50, 50) ∧
      texDims (on_target_resize facadeOk (50, 50)
          glow0).1.glow_texture_back = (50, 50) ∧
      dimsEq (on_target_resize facadeOk (50, 50) glow0).1) ∧
    dimsEq (clear_buffers facadeOk glow0).1 ∧
    dimsEq (blur_pass facadeOk glow0).1 :=
  ⟨(glow_dims_invariant facadeOk glow0 (50, 50)).1 rfl,
   (glow_dims_invariant facadeOk glow0 (50, 50)).2.1 (by decide),
   (glow_dims_invariant facadeOk glow0 (50, 50)).2.2.1 (by decide)⟩

end Rendology
